import Mathlib

/-!
Verification of `us_visa/components/data_validation.py` (class `DataValidation`).

The module validates two CSV datasets (train / test) against a YAML schema
and optionally runs an external drift-detection report.  We shallowly embed
the class: a dataframe is abstracted to its list of column labels (the only
part of a dataframe the validation logic inspects); the YAML schema config
is a record with the three keys the code reads; external effects (reading a
CSV with pandas, running the evidently drift report) are supplied by an
environment of oracles; fallible code returns `Except PyError`, and file
writes performed by `write_yaml_file` are threaded as an explicit list of
(path, content) pairs.
-/

namespace DataVal

/-- A pandas dataframe, abstracted to its column labels: the validation code
only ever inspects `df.columns`, and passes the whole dataframe opaquely to
the drift oracle. -/
structure DataFrame where
  columns : List String
deriving Repr, DecidableEq

/-- The loaded YAML schema config (`self._schema_config`), a mapping with the
three keys the code reads: `columns` (a mapping column-name ↦ dtype, of which
only the number of entries is used), `numerical_columns` and
`categorical_columns` (lists of column names). -/
structure SchemaConfig where
  columns : List (String × String)
  numerical_columns : List String
  categorical_columns : List String
deriving Repr, DecidableEq

/-- `DataIngestionArtifact`: file paths produced by the ingestion stage. -/
structure DataIngestionArtifact where
  trained_file_path : String
  test_file_path : String
deriving Repr, DecidableEq

/-- `DataValidationConfig`: configuration for the validation stage. -/
structure DataValidationConfig where
  drift_report_file_path : String
deriving Repr, DecidableEq

/-- `DataValidationArtifact`: the artifact struct returned by
`initiate_data_validation`, with exactly the three fields of the source
dataclass. -/
structure DataValidationArtifact where
  validation_status : Bool
  message : String
  drift_report_file_path : String
deriving Repr, DecidableEq

/-- Python exception values.  `usvisa e` is `USvisaException` with original
cause `e`; the other constructors model exceptions arising from the oracles
and from dictionary key access. -/
inductive PyError where
  | usvisa (cause : PyError)
  | keyError (key : String)
  | ioError (msg : String)
  | other (msg : String)
deriving Repr, DecidableEq

/-- A JSON value, as returned by `json.loads` on the drift report. -/
inductive Json where
  | bool (b : Bool)
  | num (n : Int)
  | str (s : String)
  | arr (elems : List Json)
  | obj (fields : List (String × Json))

/-- Dictionary lookup `j[key]`: `none` when `j` is not an object or lacks the
key. -/
def Json.get (j : Json) (key : String) : Option Json :=
  match j with
  | .obj fields => fields.lookup key
  | _ => none

/-- `j[key]` as a fallible operation: raises `KeyError` when absent. -/
def jsonGetKey (j : Json) (key : String) : Except PyError Json :=
  match j.get key with
  | some v => Except.ok v
  | none => Except.error (PyError.keyError key)

/-- Chained subscripts `j[k1][k2]...[kn]`. -/
def jsonDig (j : Json) (keys : List String) : Except PyError Json :=
  keys.foldlM jsonGetKey j

/-- Python truthiness of a JSON value (used by `if drift_status:`). -/
def Json.truthy : Json → Bool
  | .bool b => b
  | .num n => n != 0
  | .str s => s.length != 0
  | .arr elems => !elems.isEmpty
  | .obj fields => !fields.isEmpty

/-- The external world: reading the schema YAML, reading a CSV with pandas,
and running the evidently drift report (`Report.run` + `.json()` +
`json.loads`, collapsed into one oracle producing the parsed JSON). -/
structure Env where
  read_yaml_schema : Except PyError SchemaConfig
  read_csv : String → Except PyError DataFrame
  runDriftReport : DataFrame → DataFrame → Except PyError Json

/-- The method-boundary `try/except Exception as e: raise USvisaException(e, sys)`
pattern: a successful result passes through, any exception is rewrapped with
the original exception as cause. -/
def wrapExc (r : Except PyError α) : Except PyError α :=
  match r with
  | .ok a => .ok a
  | .error e => .error (.usvisa e)

/-- Boundary wrapper for methods that also thread the file-write log. -/
def wrapExcS (r : List (String × Json) × Except PyError α) :
    List (String × Json) × Except PyError α :=
  (r.1, wrapExc r.2)

/-- The `DataValidation` object after construction. -/
structure DataValidation where
  data_ingestion_artifact : DataIngestionArtifact
  data_validation_config : DataValidationConfig
  _schema_config : SchemaConfig
deriving Repr, DecidableEq

/-- `DataValidation.__init__`: stores the two arguments and loads the schema
config from `SCHEMA_FILE_PATH` via `read_yaml_file`; the body is wrapped at
the method boundary. -/
def DataValidation.construct (env : Env)
    (data_ingestion_artifact : DataIngestionArtifact)
    (data_validation_config : DataValidationConfig) :
    Except PyError DataValidation :=
  wrapExc <|
    match env.read_yaml_schema with
    | .error e => .error e
    | .ok schema =>
        .ok { data_ingestion_artifact := data_ingestion_artifact
              data_validation_config := data_validation_config
              _schema_config := schema }

/-- `validate_number_of_columns`: compares the dataframe's column count with
`len(self._schema_config["columns"])`.  The body is total once the schema is
a record, so the `try/except` wrapper (see
`DataValidation.validate_number_of_columns_m`) never fires. -/
def DataValidation.validate_number_of_columns (self : DataValidation)
    (dataframe : DataFrame) : Bool :=
  dataframe.columns.length == self._schema_config.columns.length

/-- `validate_number_of_columns` with its method-boundary wrapper. -/
def DataValidation.validate_number_of_columns_m (self : DataValidation)
    (dataframe : DataFrame) : Except PyError Bool :=
  wrapExc (.ok (self.validate_number_of_columns dataframe))

/-- `is_column_exist`: collects the schema's numerical columns absent from the
dataframe and the schema's categorical columns absent from the dataframe (the
source's two accumulation loops build exactly these `filter`s, in order), and
returns `not (missing_categorical_columns or missing_numerical_columns)` —
true iff both lists are empty, by Python list truthiness. -/
def DataValidation.is_column_exist (self : DataValidation) (df : DataFrame) :
    Bool :=
  let dataframe_columns := df.columns
  let missing_numerical_columns :=
    self._schema_config.numerical_columns.filter
      (fun column => !dataframe_columns.contains column)
  let missing_categorical_columns :=
    self._schema_config.categorical_columns.filter
      (fun column => !dataframe_columns.contains column)
  !(!missing_categorical_columns.isEmpty || !missing_numerical_columns.isEmpty)

/-- `is_column_exist` with its method-boundary wrapper. -/
def DataValidation.is_column_exist_m (self : DataValidation) (df : DataFrame) :
    Except PyError Bool :=
  wrapExc (.ok (self.is_column_exist df))

/-- `read_data` (static method): `pd.read_csv` wrapped at the method
boundary. -/
def DataValidation.read_data (env : Env) (file_path : String) :
    Except PyError DataFrame :=
  wrapExc (env.read_csv file_path)

/-- `detect_dataset_drift`: runs the evidently drift report on the two
dataframes, writes the full parsed JSON report to
`self.data_validation_config.drift_report_file_path` via `write_yaml_file`
(recorded in the write log), then extracts
`json_report["data_drift"]["data"]["metrics"]["n_features"]`,
`...["n_drifted_features"]` and `...["dataset_drift"]` in that order (a
`KeyError` escapes the body if a key is absent), and returns the
`dataset_drift` value.  The body is wrapped at the method boundary; note the
file write precedes the extraction, so it persists even when extraction
fails. -/
def DataValidation.detect_dataset_drift (self : DataValidation) (env : Env)
    (reference_df current_df : DataFrame) (fs : List (String × Json)) :
    List (String × Json) × Except PyError Json :=
  wrapExcS <|
    match env.runDriftReport reference_df current_df with
    | .error e => (fs, .error e)
    | .ok json_report =>
        let fs :=
          fs ++ [(self.data_validation_config.drift_report_file_path,
                  json_report)]
        (fs,
          match jsonDig json_report
              ["data_drift", "data", "metrics", "n_features"] with
          | .error e => .error e
          | .ok _n_features =>
          match jsonDig json_report
              ["data_drift", "data", "metrics", "n_drifted_features"] with
          | .error e => .error e
          | .ok _n_drifted_features =>
          match jsonDig json_report
              ["data_drift", "data", "metrics", "dataset_drift"] with
          | .error e => .error e
          | .ok drift_status => .ok drift_status)

/-- The accumulation of `validation_error_msg` in `initiate_data_validation`
(lines 117–125): starting from `""`, each failed check appends its fixed
sentence, in source order.  The four flags are the results of the four column
checks. -/
def validationErrorMessage (count_train_ok count_test_ok cols_train_ok
    cols_test_ok : Bool) : String :=
  let validation_error_msg := ""
  let validation_error_msg :=
    if count_train_ok then validation_error_msg
    else validation_error_msg ++ "Columns are missing in training dataframe. "
  let validation_error_msg :=
    if count_test_ok then validation_error_msg
    else validation_error_msg ++ "Columns are missing in test dataframe. "
  let validation_error_msg :=
    if cols_train_ok then validation_error_msg
    else validation_error_msg ++
      "Required columns are missing in training dataframe. "
  let validation_error_msg :=
    if cols_test_ok then validation_error_msg
    else validation_error_msg ++
      "Required columns are missing in test dataframe. "
  validation_error_msg

/-- `initiate_data_validation`: reads the train and test CSVs, runs the four
column checks accumulating `validation_error_msg`, sets
`validation_status = (len(validation_error_msg) == 0)`, runs drift detection
only when the column checks all passed (overwriting the message with
`"Drift detected."` / `"Drift not detected."` according to the truthiness of
the returned drift status), and returns the `DataValidationArtifact`.  The
body is wrapped at the method boundary. -/
def DataValidation.initiate_data_validation (self : DataValidation)
    (env : Env) (fs : List (String × Json)) :
    List (String × Json) × Except PyError DataValidationArtifact :=
  wrapExcS <|
    match DataValidation.read_data env
        self.data_ingestion_artifact.trained_file_path with
    | .error e => (fs, .error e)
    | .ok train_df =>
    match DataValidation.read_data env
        self.data_ingestion_artifact.test_file_path with
    | .error e => (fs, .error e)
    | .ok test_df =>
        let validation_error_msg :=
          validationErrorMessage
            (self.validate_number_of_columns train_df)
            (self.validate_number_of_columns test_df)
            (self.is_column_exist train_df)
            (self.is_column_exist test_df)
        let validation_status := validation_error_msg.length == 0
        if validation_status then
          match self.detect_dataset_drift env train_df test_df fs with
          | (fs1, .error e) => (fs1, .error e)
          | (fs1, .ok drift_status) =>
              let validation_error_msg :=
                if drift_status.truthy then "Drift detected."
                else "Drift not detected."
              (fs1, .ok { validation_status := validation_status
                          message := validation_error_msg
                          drift_report_file_path :=
                            self.data_validation_config.drift_report_file_path })
        else
          (fs, .ok { validation_status := validation_status
                     message := validation_error_msg
                     drift_report_file_path :=
                       self.data_validation_config.drift_report_file_path })

/-- `s` contains `t` as a substring: `t`'s character list is an infix of
`s`'s. -/
def ContainsSubstr (s t : String) : Prop :=
  t.data <:+: s.data

instance (s t : String) : Decidable (ContainsSubstr s t) :=
  List.decidableInfix t.data s.data

/-- An `Except` result respects the `USvisaException` wrapping discipline:
it either succeeds, or fails with a `USvisaException` carrying some original
exception as cause. -/
def ExcWrapped (r : Except PyError α) : Prop :=
  (∃ a, r = .ok a) ∨ (∃ e, r = .error (.usvisa e))

/-! Concrete sample data, used to evaluate the development on closed runs. -/

/-- A sample schema declaring five columns: two numerical, three
categorical. -/
def sampleSchema : SchemaConfig where
  columns := [("continent", "str"), ("education", "str"),
              ("experience", "str"), ("employees", "int"), ("age", "int")]
  numerical_columns := ["employees", "age"]
  categorical_columns := ["continent", "education", "experience"]

/-- A training dataframe with exactly the five schema columns. -/
def sampleTrain : DataFrame :=
  ⟨["continent", "education", "experience", "employees", "age"]⟩

/-- A test dataframe with the five schema columns in another order. -/
def sampleTest : DataFrame :=
  ⟨["age", "employees", "experience", "education", "continent"]⟩

/-- A test dataframe lacking the categorical column "experience". -/
def sampleTestMissing : DataFrame :=
  ⟨["continent", "education", "employees", "age"]⟩

/-- A sample parsed drift report with the three metric fields. -/
def sampleReport : Json :=
  .obj [("data_drift", .obj [("data", .obj [("metrics", .obj
    [("n_features", .num 5), ("n_drifted_features", .num 2),
     ("dataset_drift", .bool true)])])])]

/-- Sample ingestion artifact: the two CSV paths. -/
def sampleIngestion : DataIngestionArtifact :=
  ⟨"train.csv", "test.csv"⟩

/-- Sample validation config. -/
def sampleConfig : DataValidationConfig := ⟨"drift_report.yaml"⟩

/-- A constructed `DataValidation` object over the sample schema. -/
def sampleSelf : DataValidation := ⟨sampleIngestion, sampleConfig, sampleSchema⟩

/-- Environment in which both CSVs load with all five columns and the drift
report runs, reporting drift. -/
def sampleEnv : Env where
  read_yaml_schema := .ok sampleSchema
  read_csv := fun p =>
    if p == "train.csv" then .ok sampleTrain
    else if p == "test.csv" then .ok sampleTest
    else .error (.ioError p)
  runDriftReport := fun _ _ => .ok sampleReport

/-- Environment in which the test CSV lacks a categorical column. -/
def sampleEnvMissing : Env where
  read_yaml_schema := .ok sampleSchema
  read_csv := fun p =>
    if p == "train.csv" then .ok sampleTrain else .ok sampleTestMissing
  runDriftReport := fun _ _ => .ok sampleReport

/-- The artifact produced by the passing sample run. -/
def sampleArtifact : DataValidationArtifact :=
  { validation_status := true
    message := "Drift detected."
    drift_report_file_path := "drift_report.yaml" }

end DataVal

namespace DataVal

theorem validate_number_of_columns_iff_aux (self : DataValidation)
    (df : DataFrame) :
    self.validate_number_of_columns df = true ↔
      df.columns.length = self._schema_config.columns.length := by
  simp [DataValidation.validate_number_of_columns]

theorem is_column_exist_iff_aux (self : DataValidation) (df : DataFrame) :
    self.is_column_exist df = true ↔
      ((∀ c ∈ self._schema_config.numerical_columns, c ∈ df.columns) ∧
       (∀ c ∈ self._schema_config.categorical_columns, c ∈ df.columns)) := by
  simp [DataValidation.is_column_exist, List.filter_eq_nil_iff,
    List.isEmpty_iff, and_comm]

/-- C1: `validate_number_of_columns` returns true iff the dataframe's column
count equals the number of entries under the schema config's `columns` key. -/
theorem C1_validate_number_of_columns (self : DataValidation)
    (df : DataFrame) :
    self.validate_number_of_columns df = true ↔
      df.columns.length = self._schema_config.columns.length :=
  validate_number_of_columns_iff_aux self df

/-- C2: `is_column_exist` returns true iff every schema-declared numerical
column and every schema-declared categorical column is present among the
dataframe's columns. -/
theorem C2_is_column_exist (self : DataValidation) (df : DataFrame) :
    self.is_column_exist df = true ↔
      ((∀ c ∈ self._schema_config.numerical_columns, c ∈ df.columns) ∧
       (∀ c ∈ self._schema_config.categorical_columns, c ∈ df.columns)) :=
  is_column_exist_iff_aux self df

theorem wrapExc_ok_iff (r : Except PyError α) (a : α) :
    wrapExc r = .ok a ↔ r = .ok a := by
  cases r <;> simp [wrapExc]

theorem excWrapped_wrapExc (r : Except PyError α) : ExcWrapped (wrapExc r) := by
  cases r with
  | ok a => exact Or.inl ⟨a, rfl⟩
  | error e => exact Or.inr ⟨e, rfl⟩

theorem wrapExcS_snd (r : List (String × Json) × Except PyError α) :
    (wrapExcS r).2 = wrapExc r.2 := rfl

theorem read_data_ok (env : Env) (p : String) (df : DataFrame)
    (h : env.read_csv p = .ok df) :
    DataValidation.read_data env p = .ok df := by
  simp [DataValidation.read_data, wrapExc, h]

theorem read_data_err (env : Env) (p : String) (e : PyError)
    (h : env.read_csv p = .error e) :
    DataValidation.read_data env p = .error (.usvisa e) := by
  simp [DataValidation.read_data, wrapExc, h]

/-- Emptiness of the accumulated error message is exactly the conjunction of
the four check flags. -/
theorem vem_length_beq (b1 b2 b3 b4 : Bool) :
    ((validationErrorMessage b1 b2 b3 b4).length == 0) =
      (b1 && b2 && b3 && b4) := by
  revert b1 b2 b3 b4; decide

/-- Whenever one of the required-columns checks failed, the accumulated
message contains the sentence fragment "Required columns are missing". -/
theorem vem_contains_required (b1 b2 b3 b4 : Bool)
    (h : b3 = false ∨ b4 = false) :
    ContainsSubstr (validationErrorMessage b1 b2 b3 b4)
      "Required columns are missing" := by
  revert b1 b2 b3 b4; decide

/-- A non-passing combination of flags yields a non-empty message. -/
theorem vem_ne_empty (b1 b2 b3 b4 : Bool)
    (h : (b1 && b2 && b3 && b4) = false) :
    validationErrorMessage b1 b2 b3 b4 ≠ "" := by
  revert b1 b2 b3 b4; decide

/-- `detect_dataset_drift` when the report runs and all three metric lookups
succeed: the parsed report is written to the configured path and the
`dataset_drift` value is returned. -/
theorem detect_drift_ok (self : DataValidation) (env : Env)
    (ref cur : DataFrame) (fs : List (String × Json)) (rep nf nd dv : Json)
    (hrun : env.runDriftReport ref cur = .ok rep)
    (hnf : jsonDig rep ["data_drift", "data", "metrics", "n_features"] =
      .ok nf)
    (hnd : jsonDig rep
      ["data_drift", "data", "metrics", "n_drifted_features"] = .ok nd)
    (hdv : jsonDig rep ["data_drift", "data", "metrics", "dataset_drift"] =
      .ok dv) :
    self.detect_dataset_drift env ref cur fs =
      (fs ++ [(self.data_validation_config.drift_report_file_path, rep)],
       .ok dv) := by
  simp [DataValidation.detect_dataset_drift, wrapExcS, wrapExc,
    hrun, hnf, hnd, hdv]

/-- `detect_dataset_drift` when running the report itself fails: no file is
written and the error is rewrapped at the method boundary. -/
theorem detect_drift_run_err (self : DataValidation) (env : Env)
    (ref cur : DataFrame) (fs : List (String × Json)) (e : PyError)
    (hrun : env.runDriftReport ref cur = .error e) :
    self.detect_dataset_drift env ref cur fs = (fs, .error (.usvisa e)) := by
  simp [DataValidation.detect_dataset_drift, wrapExcS, wrapExc, hrun]

/-- `initiate_data_validation` when reading the training CSV fails. -/
theorem initiate_train_read_err (self : DataValidation) (env : Env)
    (fs : List (String × Json)) (e : PyError)
    (h1 : env.read_csv self.data_ingestion_artifact.trained_file_path =
      .error e) :
    self.initiate_data_validation env fs =
      (fs, .error (.usvisa (.usvisa e))) := by
  simp [DataValidation.initiate_data_validation, wrapExcS, wrapExc,
    read_data_err env _ e h1]

/-- `initiate_data_validation` when reading the test CSV fails. -/
theorem initiate_test_read_err (self : DataValidation) (env : Env)
    (fs : List (String × Json)) (train : DataFrame) (e : PyError)
    (h1 : env.read_csv self.data_ingestion_artifact.trained_file_path =
      .ok train)
    (h2 : env.read_csv self.data_ingestion_artifact.test_file_path =
      .error e) :
    self.initiate_data_validation env fs =
      (fs, .error (.usvisa (.usvisa e))) := by
  simp [DataValidation.initiate_data_validation, wrapExcS, wrapExc,
    read_data_ok env _ train h1, read_data_err env _ e h2]

/-- `initiate_data_validation` when both CSVs load but some column check
fails: drift detection is skipped, the write log is unchanged, and the
artifact carries `validation_status = false` with the accumulated message. -/
theorem initiate_checks_fail (self : DataValidation) (env : Env)
    (fs : List (String × Json)) (train test : DataFrame)
    (h1 : env.read_csv self.data_ingestion_artifact.trained_file_path =
      .ok train)
    (h2 : env.read_csv self.data_ingestion_artifact.test_file_path =
      .ok test)
    (hfail : (self.validate_number_of_columns train &&
              self.validate_number_of_columns test &&
              self.is_column_exist train &&
              self.is_column_exist test) = false) :
    self.initiate_data_validation env fs =
      (fs, .ok
        { validation_status := false
          message := validationErrorMessage
            (self.validate_number_of_columns train)
            (self.validate_number_of_columns test)
            (self.is_column_exist train)
            (self.is_column_exist test)
          drift_report_file_path :=
            self.data_validation_config.drift_report_file_path }) := by
  have hlen : ((validationErrorMessage
      (self.validate_number_of_columns train)
      (self.validate_number_of_columns test)
      (self.is_column_exist train)
      (self.is_column_exist test)).length == 0) = false :=
    (vem_length_beq _ _ _ _).trans hfail
  simp [DataValidation.initiate_data_validation, wrapExcS, wrapExc,
    read_data_ok env _ train h1, read_data_ok env _ test h2, hlen]

/-- `initiate_data_validation` when both CSVs load, all column checks pass,
and drift detection returns a status: the artifact has
`validation_status = true` and the drift message. -/
theorem initiate_checks_pass (self : DataValidation) (env : Env)
    (fs fs1 : List (String × Json)) (train test : DataFrame) (dv : Json)
    (h1 : env.read_csv self.data_ingestion_artifact.trained_file_path =
      .ok train)
    (h2 : env.read_csv self.data_ingestion_artifact.test_file_path =
      .ok test)
    (hpass : (self.validate_number_of_columns train &&
              self.validate_number_of_columns test &&
              self.is_column_exist train &&
              self.is_column_exist test) = true)
    (hdet : self.detect_dataset_drift env train test fs = (fs1, .ok dv)) :
    self.initiate_data_validation env fs =
      (fs1, .ok
        { validation_status := true
          message := if dv.truthy then "Drift detected."
                     else "Drift not detected."
          drift_report_file_path :=
            self.data_validation_config.drift_report_file_path }) := by
  have hlen : ((validationErrorMessage
      (self.validate_number_of_columns train)
      (self.validate_number_of_columns test)
      (self.is_column_exist train)
      (self.is_column_exist test)).length == 0) = true :=
    (vem_length_beq _ _ _ _).trans hpass
  simp [DataValidation.initiate_data_validation, wrapExcS, wrapExc,
    read_data_ok env _ train h1, read_data_ok env _ test h2, hlen, hdet]

/-- `initiate_data_validation` when the checks pass but drift detection
fails: the error is rewrapped once more at `initiate_data_validation`'s
boundary. -/
theorem initiate_detect_err (self : DataValidation) (env : Env)
    (fs fs1 : List (String × Json)) (train test : DataFrame) (e : PyError)
    (h1 : env.read_csv self.data_ingestion_artifact.trained_file_path =
      .ok train)
    (h2 : env.read_csv self.data_ingestion_artifact.test_file_path =
      .ok test)
    (hpass : (self.validate_number_of_columns train &&
              self.validate_number_of_columns test &&
              self.is_column_exist train &&
              self.is_column_exist test) = true)
    (hdet : self.detect_dataset_drift env train test fs = (fs1, .error e)) :
    self.initiate_data_validation env fs = (fs1, .error (.usvisa e)) := by
  have hlen : ((validationErrorMessage
      (self.validate_number_of_columns train)
      (self.validate_number_of_columns test)
      (self.is_column_exist train)
      (self.is_column_exist test)).length == 0) = true :=
    (vem_length_beq _ _ _ _).trans hpass
  simp [DataValidation.initiate_data_validation, wrapExcS, wrapExc,
    read_data_ok env _ train h1, read_data_ok env _ test h2, hlen, hdet]

/-- Inversion on a normal return of `initiate_data_validation`: both CSVs
loaded; the artifact's drift-report path is the configured one; its status is
the conjunction of the four column checks; and the run either skipped drift
detection (status false, write log unchanged, message the accumulated error
sentences) or ran it (status true, message one of the two drift strings). -/
theorem initiate_ok_cases (self : DataValidation) (env : Env)
    (fs fs' : List (String × Json)) (art : DataValidationArtifact)
    (hret : self.initiate_data_validation env fs = (fs', .ok art)) :
    ∃ train test,
      env.read_csv self.data_ingestion_artifact.trained_file_path =
        .ok train ∧
      env.read_csv self.data_ingestion_artifact.test_file_path = .ok test ∧
      art.drift_report_file_path =
        self.data_validation_config.drift_report_file_path ∧
      art.validation_status = (self.validate_number_of_columns train &&
        self.validate_number_of_columns test && self.is_column_exist train &&
        self.is_column_exist test) ∧
      (((self.validate_number_of_columns train &&
         self.validate_number_of_columns test && self.is_column_exist train &&
         self.is_column_exist test) = false ∧ fs' = fs ∧
        art.message = validationErrorMessage
          (self.validate_number_of_columns train)
          (self.validate_number_of_columns test)
          (self.is_column_exist train) (self.is_column_exist test)) ∨
       ((self.validate_number_of_columns train &&
         self.validate_number_of_columns test && self.is_column_exist train &&
         self.is_column_exist test) = true ∧ ∃ dv : Json,
        self.detect_dataset_drift env train test fs = (fs', .ok dv) ∧
        art.message = (if dv.truthy then "Drift detected."
                       else "Drift not detected."))) := by
  cases h1 : env.read_csv self.data_ingestion_artifact.trained_file_path with
  | error e =>
      have := (initiate_train_read_err self env fs e h1).symm.trans hret
      simp at this
  | ok train =>
  cases h2 : env.read_csv self.data_ingestion_artifact.test_file_path with
  | error e =>
      have := (initiate_test_read_err self env fs train e h1 h2).symm.trans
        hret
      simp at this
  | ok test =>
  refine ⟨train, test, rfl, rfl, ?_⟩
  cases hall : (self.validate_number_of_columns train &&
      self.validate_number_of_columns test && self.is_column_exist train &&
      self.is_column_exist test) with
  | false =>
      have heq := (initiate_checks_fail self env fs train test h1 h2
        hall).symm.trans hret
      simp only [Prod.mk.injEq, Except.ok.injEq] at heq
      obtain ⟨hfs, hart⟩ := heq
      subst hart
      exact ⟨rfl, rfl, Or.inl ⟨rfl, hfs.symm, rfl⟩⟩
  | true =>
      rcases hd : self.detect_dataset_drift env train test fs with ⟨fs1, dres⟩
      cases dres with
      | error e =>
          have := (initiate_detect_err self env fs fs1 train test e h1 h2
            hall hd).symm.trans hret
          simp at this
      | ok dv =>
          have heq := (initiate_checks_pass self env fs fs1 train test dv
            h1 h2 hall hd).symm.trans hret
          simp only [Prod.mk.injEq, Except.ok.injEq] at heq
          obtain ⟨hfs, hart⟩ := heq
          subst hart hfs
          exact ⟨rfl, rfl, Or.inr ⟨rfl, dv, rfl, rfl⟩⟩

/-- C3: when the schema declares 5 columns and both CSVs load into dataframes
with exactly 5 columns containing every schema-declared numerical and
categorical column, and the drift report runs and yields its three metric
fields, `initiate_data_validation` returns an artifact with
`validation_status = true`. -/
theorem C3_five_matching_columns_validates (self : DataValidation) (env : Env)
    (fs : List (String × Json)) (train test : DataFrame) (rep nf nd dv : Json)
    (h1 : env.read_csv self.data_ingestion_artifact.trained_file_path =
      .ok train)
    (h2 : env.read_csv self.data_ingestion_artifact.test_file_path = .ok test)
    (hschema : self._schema_config.columns.length = 5)
    (htrain : train.columns.length = 5)
    (htest : test.columns.length = 5)
    (hnumtr : ∀ c ∈ self._schema_config.numerical_columns, c ∈ train.columns)
    (hcattr : ∀ c ∈ self._schema_config.categorical_columns,
      c ∈ train.columns)
    (hnumte : ∀ c ∈ self._schema_config.numerical_columns, c ∈ test.columns)
    (hcatte : ∀ c ∈ self._schema_config.categorical_columns,
      c ∈ test.columns)
    (hrun : env.runDriftReport train test = .ok rep)
    (hnf : jsonDig rep ["data_drift", "data", "metrics", "n_features"] =
      .ok nf)
    (hnd : jsonDig rep
      ["data_drift", "data", "metrics", "n_drifted_features"] = .ok nd)
    (hdv : jsonDig rep ["data_drift", "data", "metrics", "dataset_drift"] =
      .ok dv) :
    ∃ art, self.initiate_data_validation env fs =
      (fs ++ [(self.data_validation_config.drift_report_file_path, rep)],
       .ok art) ∧
      art.validation_status = true := by
  have hb1 : self.validate_number_of_columns train = true := by
    simp [DataValidation.validate_number_of_columns, htrain, hschema]
  have hb2 : self.validate_number_of_columns test = true := by
    simp [DataValidation.validate_number_of_columns, htest, hschema]
  have hb3 : self.is_column_exist train = true :=
    (is_column_exist_iff_aux self train).mpr ⟨hnumtr, hcattr⟩
  have hb4 : self.is_column_exist test = true :=
    (is_column_exist_iff_aux self test).mpr ⟨hnumte, hcatte⟩
  have hdet := detect_drift_ok self env train test fs rep nf nd dv hrun
    hnf hnd hdv
  exact ⟨_, initiate_checks_pass self env fs _ train test dv h1 h2
    (by simp [hb1, hb2, hb3, hb4]) hdet, rfl⟩

/-- C4: when one of the loaded dataframes lacks a schema-declared categorical
column, the returned artifact's message contains the substring
"Required columns are missing". -/
theorem C4_missing_categorical_message (self : DataValidation) (env : Env)
    (fs : List (String × Json)) (train test : DataFrame)
    (h1 : env.read_csv self.data_ingestion_artifact.trained_file_path =
      .ok train)
    (h2 : env.read_csv self.data_ingestion_artifact.test_file_path = .ok test)
    (hmiss : (∃ c ∈ self._schema_config.categorical_columns,
                c ∉ train.columns) ∨
             (∃ c ∈ self._schema_config.categorical_columns,
                c ∉ test.columns)) :
    ∃ art, self.initiate_data_validation env fs = (fs, .ok art) ∧
      ContainsSubstr art.message "Required columns are missing" := by
  have h34 : self.is_column_exist train = false ∨
      self.is_column_exist test = false := by
    rcases hmiss with ⟨c, hc, hnc⟩ | ⟨c, hc, hnc⟩
    · exact Or.inl (Bool.eq_false_iff.mpr fun h =>
        hnc (((is_column_exist_iff_aux self train).mp h).2 c hc))
    · exact Or.inr (Bool.eq_false_iff.mpr fun h =>
        hnc (((is_column_exist_iff_aux self test).mp h).2 c hc))
  have hfail : (self.validate_number_of_columns train &&
      self.validate_number_of_columns test && self.is_column_exist train &&
      self.is_column_exist test) = false := by
    rcases h34 with h | h <;> simp [h]
  refine ⟨_, initiate_checks_fail self env fs train test h1 h2 hfail, ?_⟩
  exact vem_contains_required _ _ _ _ h34

/-- C5: every method of `DataValidation` respects the
`USvisaException`-wrapping discipline: its result is either a success or a
`USvisaException` carrying the original exception as cause, and for the
fallible oracles the cause is exactly the oracle's exception. -/
theorem C5_exception_wrapping (env : Env) (ia : DataIngestionArtifact)
    (cfg : DataValidationConfig) (self : DataValidation)
    (df ref cur : DataFrame) (path : String)
    (fs fs' : List (String × Json)) :
    ExcWrapped (DataValidation.construct env ia cfg) ∧
    ExcWrapped (self.validate_number_of_columns_m df) ∧
    ExcWrapped (self.is_column_exist_m df) ∧
    ExcWrapped (DataValidation.read_data env path) ∧
    ExcWrapped (self.detect_dataset_drift env ref cur fs).2 ∧
    ExcWrapped (self.initiate_data_validation env fs').2 ∧
    (∀ e, env.read_csv path = .error e →
      DataValidation.read_data env path = .error (.usvisa e)) ∧
    (∀ e, env.runDriftReport ref cur = .error e →
      (self.detect_dataset_drift env ref cur fs).2 = .error (.usvisa e)) := by
  refine ⟨?_, excWrapped_wrapExc _, excWrapped_wrapExc _,
    excWrapped_wrapExc _, ?_, ?_, ?_, ?_⟩
  · unfold DataValidation.construct
    exact excWrapped_wrapExc _
  · rw [DataValidation.detect_dataset_drift, wrapExcS_snd]
    exact excWrapped_wrapExc _
  · rw [DataValidation.initiate_data_validation, wrapExcS_snd]
    exact excWrapped_wrapExc _
  · exact fun e he => read_data_err env path e he
  · intro e he
    rw [detect_drift_run_err self env ref cur fs e he]

/-- C6: when the drift report runs and its three metric fields are present,
`detect_dataset_drift` writes the full parsed report to the configured
`drift_report_file_path` and returns the extracted `dataset_drift` value. -/
theorem C6_detect_dataset_drift_spec (self : DataValidation) (env : Env)
    (ref cur : DataFrame) (fs : List (String × Json)) (rep nf nd dv : Json)
    (hrun : env.runDriftReport ref cur = .ok rep)
    (hnf : jsonDig rep ["data_drift", "data", "metrics", "n_features"] =
      .ok nf)
    (hnd : jsonDig rep
      ["data_drift", "data", "metrics", "n_drifted_features"] = .ok nd)
    (hdv : jsonDig rep ["data_drift", "data", "metrics", "dataset_drift"] =
      .ok dv) :
    self.detect_dataset_drift env ref cur fs =
      (fs ++ [(self.data_validation_config.drift_report_file_path, rep)],
       .ok dv) :=
  detect_drift_ok self env ref cur fs rep nf nd dv hrun hnf hnd hdv

/-- C7: every artifact returned by a normal run of
`initiate_data_validation` carries the configured `drift_report_file_path`
(and, by the structure declaration, exactly the three fields
`validation_status`, `message`, `drift_report_file_path`). -/
theorem C7_artifact_fields (self : DataValidation) (env : Env)
    (fs fs' : List (String × Json)) (art : DataValidationArtifact)
    (hret : self.initiate_data_validation env fs = (fs', .ok art)) :
    art.drift_report_file_path =
      self.data_validation_config.drift_report_file_path := by
  obtain ⟨train, test, -, -, hpath, -⟩ :=
    initiate_ok_cases self env fs fs' art hret
  exact hpath

/-- C8: the returned `validation_status` is exactly the conjunction of the
four column checks (hence independent of the drift result), and when the
checks pass and the drift report yields a truthy `dataset_drift`, the
artifact still has `validation_status = true` with message
"Drift detected.". -/
theorem C8_status_independent_of_drift (self : DataValidation) (env : Env)
    (fs : List (String × Json)) (train test : DataFrame)
    (h1 : env.read_csv self.data_ingestion_artifact.trained_file_path =
      .ok train)
    (h2 : env.read_csv self.data_ingestion_artifact.test_file_path =
      .ok test) :
    (∀ fs' art, self.initiate_data_validation env fs = (fs', .ok art) →
      art.validation_status = (self.validate_number_of_columns train &&
        self.validate_number_of_columns test && self.is_column_exist train &&
        self.is_column_exist test)) ∧
    (∀ fs1 dv, (self.validate_number_of_columns train &&
        self.validate_number_of_columns test && self.is_column_exist train &&
        self.is_column_exist test) = true →
      self.detect_dataset_drift env train test fs = (fs1, .ok dv) →
      dv.truthy = true →
      self.initiate_data_validation env fs =
        (fs1, .ok { validation_status := true
                    message := "Drift detected."
                    drift_report_file_path :=
                      self.data_validation_config.drift_report_file_path })) := by
  constructor
  · intro fs' art hret
    obtain ⟨train', test', h1', h2', -, hstat, -⟩ :=
      initiate_ok_cases self env fs fs' art hret
    rw [h1] at h1'
    rw [h2] at h2'
    cases h1'
    cases h2'
    exact hstat
  · intro fs1 dv hpass hdet htr
    have := initiate_checks_pass self env fs fs1 train test dv h1 h2
      hpass hdet
    rwa [htr, if_pos rfl] at this

/-- C9: when a column check fails, drift detection is skipped — the write log
is unchanged, so no drift report file is created — yet the artifact still
carries the configured `drift_report_file_path`. -/
theorem C9_no_drift_on_failed_checks (self : DataValidation) (env : Env)
    (fs : List (String × Json)) (train test : DataFrame)
    (h1 : env.read_csv self.data_ingestion_artifact.trained_file_path =
      .ok train)
    (h2 : env.read_csv self.data_ingestion_artifact.test_file_path = .ok test)
    (hfail : (self.validate_number_of_columns train &&
        self.validate_number_of_columns test && self.is_column_exist train &&
        self.is_column_exist test) = false) :
    ∃ art, self.initiate_data_validation env fs = (fs, .ok art) ∧
      art.validation_status = false ∧
      art.drift_report_file_path =
        self.data_validation_config.drift_report_file_path :=
  ⟨_, initiate_checks_fail self env fs train test h1 h2 hfail, rfl, rfl⟩

/-- C10: the message of every normally returned artifact is non-empty; when
the status is true it is exactly "Drift detected." or "Drift not detected.",
and when the status is false it is the accumulated concatenation of the
failed checks' error sentences. -/
theorem C10_message_invariant (self : DataValidation) (env : Env)
    (fs fs' : List (String × Json)) (art : DataValidationArtifact)
    (hret : self.initiate_data_validation env fs = (fs', .ok art)) :
    art.message ≠ "" ∧
    (art.validation_status = true →
      art.message = "Drift detected." ∨ art.message = "Drift not detected.") ∧
    (art.validation_status = false →
      ∃ b1 b2 b3 b4, (b1 && b2 && b3 && b4) = false ∧
        art.message = validationErrorMessage b1 b2 b3 b4) := by
  obtain ⟨train, test, h1, h2, hpath, hstat, hcase⟩ :=
    initiate_ok_cases self env fs fs' art hret
  rcases hcase with ⟨hfail, hfs, hmsg⟩ | ⟨hpass, dv, hdet, hmsg⟩
  · refine ⟨?_, ?_, ?_⟩
    · rw [hmsg]
      exact vem_ne_empty _ _ _ _ hfail
    · intro ht
      rw [hstat, hfail] at ht
      cases ht
    · intro _
      exact ⟨_, _, _, _, hfail, hmsg⟩
  · refine ⟨?_, ?_, ?_⟩
    · rw [hmsg]
      cases dv.truthy <;> simp
    · intro _
      rw [hmsg]
      cases dv.truthy
      · exact Or.inr (if_neg (by simp))
      · exact Or.inl (if_pos rfl)
    · intro hf
      rw [hstat, hpass] at hf
      cases hf

/-- Witness for C3: the sample passing run yields a status-true artifact. -/
theorem C3_witness :
    ∃ art, sampleSelf.initiate_data_validation sampleEnv [] =
      ([("drift_report.yaml", sampleReport)], .ok art) ∧
      art.validation_status = true :=
  C3_five_matching_columns_validates sampleSelf sampleEnv [] sampleTrain
    sampleTest sampleReport (.num 5) (.num 2) (.bool true) rfl rfl rfl rfl
    rfl (by decide) (by decide) (by decide) (by decide) rfl rfl rfl rfl

/-- Witness for C4: with "experience" missing from the test dataframe, the
returned message contains "Required columns are missing". -/
theorem C4_witness :
    ∃ art, sampleSelf.initiate_data_validation sampleEnvMissing [] =
      ([], .ok art) ∧
      ContainsSubstr art.message "Required columns are missing" :=
  C4_missing_categorical_message sampleSelf sampleEnvMissing [] sampleTrain
    sampleTestMissing rfl rfl (Or.inr ⟨"experience", by decide, by decide⟩)

/-- Witness for C6: the sample drift run writes the report and returns the
`dataset_drift` value. -/
theorem C6_witness :
    sampleSelf.detect_dataset_drift sampleEnv sampleTrain sampleTest [] =
      ([("drift_report.yaml", sampleReport)], .ok (.bool true)) :=
  C6_detect_dataset_drift_spec sampleSelf sampleEnv sampleTrain sampleTest []
    sampleReport (.num 5) (.num 2) (.bool true) rfl rfl rfl rfl

/-- Witness for C7: the sample run's artifact carries the configured
drift-report path. -/
theorem C7_witness :
    sampleArtifact.drift_report_file_path =
      sampleSelf.data_validation_config.drift_report_file_path :=
  C7_artifact_fields sampleSelf sampleEnv [] [("drift_report.yaml",
    sampleReport)] sampleArtifact rfl

/-- Witness for C8 at the sample run. -/
theorem C8_witness :
    (∀ fs' art,
      sampleSelf.initiate_data_validation sampleEnv [] = (fs', .ok art) →
      art.validation_status =
        (sampleSelf.validate_number_of_columns sampleTrain &&
         sampleSelf.validate_number_of_columns sampleTest &&
         sampleSelf.is_column_exist sampleTrain &&
         sampleSelf.is_column_exist sampleTest)) ∧
    (∀ fs1 dv, (sampleSelf.validate_number_of_columns sampleTrain &&
         sampleSelf.validate_number_of_columns sampleTest &&
         sampleSelf.is_column_exist sampleTrain &&
         sampleSelf.is_column_exist sampleTest) = true →
      sampleSelf.detect_dataset_drift sampleEnv sampleTrain sampleTest [] =
        (fs1, .ok dv) →
      dv.truthy = true →
      sampleSelf.initiate_data_validation sampleEnv [] =
        (fs1, .ok { validation_status := true
                    message := "Drift detected."
                    drift_report_file_path :=
                      sampleSelf.data_validation_config.drift_report_file_path })) :=
  C8_status_independent_of_drift sampleSelf sampleEnv [] sampleTrain
    sampleTest rfl rfl

/-- Witness for C9: the failing sample run skips drift detection, leaves the
write log empty, and still carries the configured path. -/
theorem C9_witness :
    ∃ art, sampleSelf.initiate_data_validation sampleEnvMissing [] =
      ([], .ok art) ∧
      art.validation_status = false ∧
      art.drift_report_file_path =
        sampleSelf.data_validation_config.drift_report_file_path :=
  C9_no_drift_on_failed_checks sampleSelf sampleEnvMissing [] sampleTrain
    sampleTestMissing rfl rfl (by decide)

/-- Witness for C10 at the passing sample run. -/
theorem C10_witness :
    sampleArtifact.message ≠ "" ∧
    (sampleArtifact.validation_status = true →
      sampleArtifact.message = "Drift detected." ∨
      sampleArtifact.message = "Drift not detected.") ∧
    (sampleArtifact.validation_status = false →
      ∃ b1 b2 b3 b4, (b1 && b2 && b3 && b4) = false ∧
        sampleArtifact.message = validationErrorMessage b1 b2 b3 b4) :=
  C10_message_invariant sampleSelf sampleEnv [] [("drift_report.yaml",
    sampleReport)] sampleArtifact rfl

end DataVal
